import Mathlib

/-!
Verification of the `pref_imdb` lookup tool (`imdb.py`).

The file shallowly embeds the pure logic of the program: query construction,
IMDb-id reformatting, the three rendering functions, the interactive selection
loop, and the `main` orchestration (with console input modelled as a list of
strings, remote responses as an environment record, and the observable
behaviour as a trace of print/request events).
-/

namespace Imdb

/-- Whitespace characters that the Python `int()` builtin (via `str.strip`) ignores
around a numeral (ASCII subset). -/
def pyIsSpace (c : Char) : Bool :=
  c = ' ' || c = '\t' || c = '\n' || c = '\r' || c = '\x0b' || c = '\x0c'

/-- Accumulates the value of a digit string that may contain single
underscores between digits, as the Python `int()` builtin accepts. Returns `none` on a
misplaced underscore or a non-digit character. -/
def pyDigitsVal : Nat → List Char → Option Nat
  | acc, [] => some acc
  | acc, '_' :: c :: rest =>
    if c.isDigit then pyDigitsVal (acc * 10 + (c.toNat - 48)) rest else none
  | acc, c :: rest =>
    if c.isDigit then pyDigitsVal (acc * 10 + (c.toNat - 48)) rest else none

/-- Parses a nonempty digit sequence (first character must be a digit). -/
def pyDigitsFirst : List Char → Option Nat
  | [] => none
  | c :: rest => if c.isDigit then pyDigitsVal (c.toNat - 48) rest else none

/-- Parses an optionally signed digit sequence. -/
def pyParseIntCore : List Char → Option Int
  | '+' :: rest => (pyDigitsFirst rest).map Int.ofNat
  | '-' :: rest => (pyDigitsFirst rest).map (fun n => -(Int.ofNat n))
  | cs => (pyDigitsFirst cs).map Int.ofNat

/-- Model of the Python builtin `int(s)` on ASCII strings: optional surrounding
whitespace, optional sign, digits with optional single underscores between
them; `none` models `ValueError`. -/
def pyParseInt (s : String) : Option Int :=
  pyParseIntCore (((s.toList.dropWhile pyIsSpace).reverse.dropWhile pyIsSpace).reverse)

/-- Model of the Python method `str.title()` on ASCII strings: a letter is upper-cased
when the previous character is not a letter, lower-cased otherwise. -/
def pyTitleGo : List Char → Bool → List Char
  | [], _ => []
  | c :: rest, prevAlpha =>
    (if prevAlpha then c.toLower else c.toUpper) :: pyTitleGo rest c.isAlpha

/-- Python `s.title()`. -/
def pyTitle (s : String) : String := ⟨pyTitleGo s.toList false⟩

/-- Python format spec `{s:<w}`: left-justify `s` in a field of width `w`. -/
def ljust (s : String) (w : Nat) : String :=
  s ++ String.mk (List.replicate (w - s.length) ' ')

/-- Embedding of `construct_query` (imdb.py line 17): a Python dict with a
single key, modelled as an association list. -/
def construct_query (q_data : String) (is_title : Bool) : List (String × String) :=
  if is_title then [("q", q_data)] else [("tconst", q_data)]

/-- Embedding of `convert_imdb_id` (imdb.py line 140): drop the first
character when the id is longer than 9 characters. -/
def convert_imdb_id (imdb_id : String) : String :=
  if imdb_id.length > 9 then imdb_id.drop 1 else imdb_id

/-- The anchored pattern `tt[0-9]{7,8}` of imdb.py line 181, as a full-string
match. (`re.search` with both anchors is applied only to `input()` results,
which never contain a newline, so the full match is the exact semantics.) -/
def matches_imdb_id (s : String) : Bool :=
  let cs := s.toList
  (cs.take 2 == ['t', 't']) && (cs.drop 2).all Char.isDigit
    && ((cs.drop 2).length == 7 || (cs.drop 2).length == 8)

example : pyParseInt "  -42 " = some (-42) := by rfl
example : pyParseInt "1_0" = some 10 := by rfl
example : pyParseInt "1_" = none := by rfl
example : pyParseInt "abc" = none := by rfl
example : pyParseInt "0" = some 0 := by rfl
example : pyTitle "actor" = "Actor" := by rfl
example : pyTitle "NA" = "Na" := by rfl
example : ljust "AKA" 5 = "AKA  " := by rfl
example : matches_imdb_id "tt0133093" = true := by rfl
example : matches_imdb_id "tt01330931" = true := by rfl
example : matches_imdb_id "tt013309" = false := by rfl
example : matches_imdb_id "t0133093" = false := by rfl
example : convert_imdb_id "tt01234567" = "t01234567" := by rfl
/-- Length of a string after dropping its first character. -/
theorem length_string_drop_one (s : String) : (s.drop 1).length = s.length - 1 := by
  show (s.drop 1).data.length = s.data.length - 1
  rw [String.data_drop, List.length_drop]

/-- A search hit as used by `display_search_results`: the optional fields the
code reads via `dict.get`. -/
structure SearchHit where
  titleType : Option String
  title : Option String
  name : Option String
  id : Option String
deriving DecidableEq, Repr

/-- One line of `display_search_results` (imdb.py lines 58-59), for the
1-based position `n`; the two f-strings concatenated. -/
def searchLine (n : Nat) (h : SearchHit) : String :=
  toString n ++ "= Type: " ++ ljust (h.titleType.getD "AKA") 15
    ++ "Title: " ++ ljust (h.title.getD (h.name.getD "Not Found")) 25 ++ "\n"

/-- The loop of `display_search_results`: `n` iterations remain, `i` is the
current 0-based index, `acc` the string built so far. An out-of-range index
access (Python `IndexError`) yields `none`. -/
def dsr_go (titles : List SearchHit) : Nat → Nat → String → Option String
  | 0, _, acc => some acc
  | n + 1, i, acc =>
    match titles[i]? with
    | none => none
    | some h => dsr_go titles n (i + 1) (acc ++ searchLine (i + 1) h)

/-- Embedding of `display_search_results` (imdb.py lines 47-60). -/
def display_search_results (titles : List SearchHit) (display : Nat) : Option String :=
  dsr_go titles display 0 ""

/-- Specification-side rendering: the lines for consecutive 1-based positions
starting at `n`, one per hit, each showing the position, the `titleType` of the hit (or the placeholder "AKA") and its `title`/`name` (or the
placeholder "Not Found"). -/
def specLines : Nat → List SearchHit → List String
  | _, [] => []
  | n, h :: rest => searchLine n h :: specLines (n + 1) rest

/-- Membership in the Python check `user_selection in range(bound)` where
`user_selection` may be a non-integer (`none`). -/
def selInRange (sel : Option Int) (bound : Int) : Bool :=
  match sel with
  | some v => decide (0 ≤ v) && decide (v < bound)
  | none => false

/-- The `while` loop of `get_user_selection` (imdb.py lines 72-80). `sel` is
the current value of `user_selection` (`none` for the initial `None` and for
strings left by a failed `int()` conversion), `invalids` counts the
"Invalid Entry." messages printed so far. Returns `(none, _)` when the input
stream is exhausted while the loop still runs (Python would raise
`EOFError`). -/
def gus_go (rc : Int) : List String → Option Int → Nat → Option Int × Nat
  | inputs, sel, invalids =>
    if selInRange sel (rc + 1) then (sel, invalids)
    else
      match inputs with
      | [] => (none, invalids)
      | s :: rest =>
        match pyParseInt s with
        | none => gus_go rc rest none (invalids + 1)
        | some k =>
          if 1 ≤ k && k ≤ rc then gus_go rc rest (some (k - 1)) invalids
          else gus_go rc rest (some k) (invalids + 1)

/-- Embedding of `get_user_selection` (imdb.py lines 63-82) over a finite
console-input stream: returns the chosen value and the number of
"Invalid Entry." messages printed. -/
def get_user_selection (rc : Int) (inputs : List String) : Option Int × Nat :=
  gus_go rc inputs none 0

example : get_user_selection 3 ["abc", "9", "2"] = (some 1, 2) := by rfl
example : get_user_selection 3 ["0"] = (some 0, 1) := by rfl
example : get_user_selection 3 ["-1", "3"] = (some 2, 1) := by rfl

/-- The `base` record of a `TitleDetail`, with the optional fields the code
reads via `dict.get`. -/
structure TitleBase where
  title : Option String
  name : Option String
  titleType : Option String
  year : Option Nat
deriving DecidableEq, Repr

/-- A person record from `cast` or `crew.director`. -/
structure CastMember where
  category : Option String
  legacyNameText : Option String
  name : Option String
deriving DecidableEq, Repr

/-- A `TitleDetail` response: `base`, the `cast` sequence, and the
`crew.director` sequence. -/
structure TitleDetail where
  base : TitleBase
  cast : List CastMember
  director : List CastMember
deriving DecidableEq, Repr

/-- The name shown for a person: `legacyNameText`, else `name`, else "NA"
(imdb.py lines 103-107). -/
def pyGetName (c : CastMember) : String :=
  c.legacyNameText.getD (c.name.getD "NA")

/-- One cast line of the credits display (imdb.py lines 103-105): note that a
missing `category` renders as "Na", because the default "NA" is also passed
through the Python method `str.title()`. -/
def castLine (c : CastMember) : String :=
  pyTitle (c.category.getD "NA") ++ ": " ++ pyGetName c ++ "\n"

/-- Embedding of `display_title_credits` (imdb.py lines 85-109). The code
indexes `crew.director[0]` and `cast[0]`, `cast[1]`, `cast[2]` without
bounds checks, so a `cast` with fewer than 3 entries or an empty `director`
raises `IndexError`, modelled as `none`. -/
def display_title_credits (title : TitleDetail) (imdb_id : String) : Option String :=
  match title.director, title.cast with
  | d :: _, c0 :: c1 :: c2 :: _ =>
    some ("*************** Production Details ***************\n"
      ++ "Title: " ++ title.base.title.getD (title.base.name.getD "NA") ++ "\n"
      ++ "Type: " ++ title.base.titleType.getD "NA" ++ "\n"
      ++ "Year: " ++ (match title.base.year with
                      | some y => toString y
                      | none => "Unavailable") ++ "\n"
      ++ "IMDb: " ++ imdb_id ++ " \t(formatted for PREF)\n\n"
      ++ castLine c0 ++ castLine c1 ++ castLine c2
      ++ "Director: " ++ pyGetName d ++ "\n")
  | _, _ => none

/-- An entry of `alternateTitles`, with its optional `title` field. -/
structure AltEntry where
  title : Option String
deriving DecidableEq, Repr

/-- The title string the loop works with: `entry.get` with default "NA"
(imdb.py lines 123 and 128). -/
def pyGetTitle (e : AltEntry) : String := e.title.getD "NA"

/-- One line of the alternate-titles display (imdb.py line 126). -/
def altLine (language title : String) : String :=
  "Language: " ++ ljust language 5 ++ "\t" ++ "Title: " ++ ljust title 30 ++ "\n"

/-- The loop of `display_alternate_titles` (imdb.py lines 122-128): `seen`
models the `repeats` set (membership only). Returns the rendered lines and
the list of titles passed to the language-detection function, in call
order. -/
def alt_go (detect : String → String) : List AltEntry → List String → String × List String
  | [], _ => ("", [])
  | e :: rest, seen =>
    if pyGetTitle e ∈ seen then alt_go detect rest (pyGetTitle e :: seen)
    else
      let r := alt_go detect rest (pyGetTitle e :: seen)
      (altLine (detect (pyGetTitle e)) (pyGetTitle e) ++ r.1, pyGetTitle e :: r.2)

/-- Embedding of `display_alternate_titles` (imdb.py lines 112-130), with the
language-detection call passed in as a function. -/
def display_alternate_titles (detect : String → String) (entries : List AltEntry) : String :=
  "\n**************** Alternate Titles ****************\n" ++ (alt_go detect entries []).1

/-- The sequence of arguments `display_alternate_titles` passes to the
language-detection function, in call order. -/
def alt_calls (detect : String → String) (entries : List AltEntry) : List String :=
  (alt_go detect entries []).2

/-- Specification-side deduplication: the distinct elements of a list in
order of first occurrence. -/
def firstOccurrences : List String → List String
  | [] => []
  | t :: ts => t :: (firstOccurrences ts).filter (fun x => decide (x ≠ t))

example :
    alt_calls (fun _ => "EN") [⟨some "A"⟩, ⟨some "B"⟩, ⟨some "A"⟩, ⟨some "C"⟩]
      = ["A", "B", "C"] := by rfl
example : firstOccurrences ["A", "B", "A", "C"] = ["A", "B", "C"] := by rfl
example : alt_calls (fun _ => "EN") [⟨none⟩, ⟨some "NA"⟩] = ["NA"] := by rfl

/-- The three metadata endpoints of `header.urls` used by `main`; their URL
strings are opaque configuration, so only their identities are modelled. -/
inductive Endpoint where
  | title_search
  | get_credits
  | get_versions
deriving DecidableEq, Repr

/-- An observable step of a run: a `print` to the console or an outbound
request with its query parameters. -/
inductive Event where
  | printed (s : String)
  | requested (ep : Endpoint) (query : List (String × String))
deriving DecidableEq, Repr

/-- How a run ends: normal completion, `sys.exit()`, or an uncaught
exception (including `EOFError` on exhausted console input). -/
inductive Outcome where
  | finished
  | exited
  | crashed
deriving DecidableEq, Repr

/-- The environment of one run: the console-input stream and the (already
JSON-decoded) bodies the remote services would answer with, plus the
language-detection service as a function. -/
structure Env where
  inputs : List String
  searchResults : List SearchHit
  credits : TitleDetail
  altTitles : List AltEntry
  detect : String → String

/-- The mode-selection banner printed by imdb.py line 153. -/
def banner : String :=
  "\nSEARCH TYPE:\n\n1=Search by Title\n2=Search by IMDb ID\n"

/-- The shared tail of both workflows (imdb.py lines 185-192): build the
credits query from the raw id, fetch and render credits (displaying the
`convert_imdb_id`-formatted id), then fetch and render alternate titles. -/
def mainTail (env : Env) (ev : List Event) (imdb_id : String) : List Event × Outcome :=
  let q := construct_query imdb_id false
  let ev1 := ev ++ [Event.requested .get_credits q]
  match display_title_credits env.credits (convert_imdb_id imdb_id) with
  | none => (ev1, .crashed)
  | some creditsStr =>
    (ev1 ++ [Event.printed creditsStr,
             Event.requested .get_versions q,
             Event.printed "\n Detecting Title Languages ...",
             Event.printed (display_alternate_titles env.detect env.altTitles)],
     .finished)

/-- Embedding of `main` (imdb.py lines 143-192) as a trace of events plus an
outcome, over the environment `env`. Console reads consume `env.inputs`;
reading past its end is the `EOFError` crash. -/
def main (env : Env) : List Event × Outcome :=
  let ev0 := [Event.printed banner]
  match env.inputs with
  | [] => (ev0, .crashed)
  | stStr :: rest1 =>
    match pyParseInt stStr with
    | none => (ev0 ++ [Event.printed "Invalid Selecton."], .exited)
    | some st =>
      if st = 1 then
        match rest1 with
        | [] => (ev0, .crashed)
        | searchText :: rest2 =>
          let q := construct_query searchText true
          let ev1 := ev0 ++ [Event.requested .title_search q]
          match display_search_results env.searchResults 3 with
          | none => (ev1, .crashed)
          | some disp =>
            let ev2 := ev1 ++ [Event.printed disp]
            let sel := get_user_selection 3 rest2
            let ev3 := ev2 ++ List.replicate sel.2 (Event.printed "Invalid Entry.")
            match sel.1 with
            | none => (ev3, .crashed)
            | some chosen =>
              match env.searchResults[chosen.toNat]? with
              | none => (ev3, .crashed)
              | some hit =>
                match hit.id with
                | none => (ev3, .crashed)
                | some idPath =>
                  match (idPath.splitOn "/")[2]? with
                  | none => (ev3, .crashed)
                  | some imdb_id => mainTail env ev3 imdb_id
      else if st = 2 then
        match rest1 with
        | [] => (ev0, .crashed)
        | rawId :: _ =>
          if matches_imdb_id rawId then mainTail env ev0 rawId
          else (ev0 ++ [Event.printed "Invalid ID."], .exited)
      else (ev0 ++ [Event.printed "Invalid Selecton."], .exited)

/-- A sample `base` record used in concrete runs. -/
def td_base : TitleBase := ⟨some "The Matrix", none, some "movie", some 1999⟩

/-- A sample person record used in concrete runs. -/
def td_person : CastMember := ⟨some "actor", none, some "Keanu Reeves"⟩

/-- A sample `TitleDetail` with three cast members and one director. -/
def td_full : TitleDetail := ⟨td_base, [td_person, td_person, td_person], [td_person]⟩

/-- Claim C1 (code-bug evidence): with `result_count = 3` and the single console
entry "0", `get_user_selection` prints "Invalid Entry." exactly once and then
returns 0 — the loop exits after an invalid entry, because the rejected value
0 satisfies the loop guard `user_selection in range(result_count + 1)`. The
claim (and the "Invalid Entry." message of the function itself) say the loop can only
be left by a valid 1-based entry. -/
theorem C1_zero_input_escapes_loop :
    get_user_selection 3 ["0"] = (some 0, 1) := by rfl

/-- Claim C2 (counterexample): `display_title_credits` does fail — `none`, i.e. an
uncaught `IndexError` — on an empty cast, and likewise on an empty
`crew.director` sequence, contrary to the claim that rendering never fails in
exactly these cases. -/
theorem C2_counterexample :
    display_title_credits ⟨td_base, [], [td_person]⟩ "tt0133093" = none
      ∧ display_title_credits ⟨td_base, [td_person, td_person, td_person], []⟩
          "tt0133093" = none :=
  ⟨rfl, rfl⟩

/-- Claim C2 (amended): rendering credits succeeds — returns a formatted string —
for every `TitleDetail` whose cast has at least 3 entries and whose
`crew.director` sequence is nonempty; with fewer cast entries or an empty
director sequence it raises instead. -/
theorem C2_render_total_on_sufficient_detail (t : TitleDetail) (fid : String)
    (hc : 3 ≤ t.cast.length) (hd : t.director ≠ []) :
    ∃ s, display_title_credits t fid = some s := by
  obtain ⟨b, cast, dir⟩ := t
  rcases dir with _ | ⟨d, ds⟩
  · exact absurd rfl hd
  rcases cast with _ | ⟨c0, cast⟩
  · simp at hc
  rcases cast with _ | ⟨c1, cast⟩
  · simp at hc
  rcases cast with _ | ⟨c2, cast⟩
  · simp at hc
  exact ⟨_, rfl⟩

/-- Claim C2 (witness): a concrete detail record with three cast members and a
director renders successfully. -/
theorem C2_witness : ∃ s, display_title_credits td_full "tt0133093" = some s :=
  C2_render_total_on_sufficient_detail td_full "tt0133093" (by decide) (by decide)

/-- Claim C4: `convert_imdb_id` returns the id unchanged when its length is at most
9, and the id with exactly its first character removed when the length
exceeds 9. -/
theorem C4_convert_imdb_id_spec (s : String) :
    (s.length ≤ 9 → convert_imdb_id s = s)
      ∧ (9 < s.length → convert_imdb_id s = s.drop 1) := by
  constructor
  · intro h
    have hn : ¬(s.length > 9) := by omega
    simp [convert_imdb_id, hn]
  · intro h
    simp [convert_imdb_id, h]

/-- Claim C4 (witness): the 9-character id "tt0133093" is unchanged; the
10-character id "tt01234567" loses its first character. -/
theorem C4_witness :
    ("tt0133093".length ≤ 9 ∧ convert_imdb_id "tt0133093" = "tt0133093")
      ∧ (9 < "tt01234567".length
          ∧ convert_imdb_id "tt01234567" = "tt01234567".drop 1) :=
  ⟨⟨by decide, (C4_convert_imdb_id_spec "tt0133093").1 (by decide)⟩,
   ⟨by decide, (C4_convert_imdb_id_spec "tt01234567").2 (by decide)⟩⟩

/-- Claim C5: `construct_query` produces exactly the one-key mapping `{q: x}` in
title mode and `{tconst: x}` in id mode, and in either mode the result has
exactly one key (so the two keys are never mixed). -/
theorem C5_construct_query_spec (x : String) :
    construct_query x true = [("q", x)]
      ∧ construct_query x false = [("tconst", x)]
      ∧ ∀ b : Bool, (construct_query x b).length = 1 := by
  refine ⟨rfl, rfl, fun b => ?_⟩
  cases b <;> rfl

/-- Claim C10: on every well-formed catalogue id (`tt` followed by 7 or 8 digits),
`convert_imdb_id` is idempotent and its result has length exactly 9. -/
theorem C10_convert_idempotent_on_valid_ids (s : String)
    (h : matches_imdb_id s = true) :
    convert_imdb_id (convert_imdb_id s) = convert_imdb_id s
      ∧ (convert_imdb_id s).length = 9 := by
  have hlen : s.length = 9 ∨ s.length = 10 := by
    simp only [matches_imdb_id, Bool.and_eq_true, Bool.or_eq_true, beq_iff_eq] at h
    obtain ⟨⟨htake, -⟩, hlen78⟩ := h
    have htl : (s.toList.take 2).length = 2 := by rw [htake]; rfl
    rw [List.length_take] at htl
    have hdl : s.toList.length - 2 = 7 ∨ s.toList.length - 2 = 8 := by
      rw [← List.length_drop]; exact hlen78
    have hsl : s.length = s.toList.length := rfl
    omega
  rcases hlen with h9 | h10
  · have hn : ¬(s.length > 9) := by omega
    simp [convert_imdb_id, hn, h9]
  · have hp : s.length > 9 := by omega
    have hd : (s.drop 1).length = 9 := by rw [length_string_drop_one]; omega
    have hn : ¬((s.drop 1).length > 9) := by omega
    simp [convert_imdb_id, hp, hd, hn]

/-- Claim C10 (witness): idempotence and length 9 at the concrete valid id
"tt0133093". -/
theorem C10_witness :
    matches_imdb_id "tt0133093" = true
      ∧ convert_imdb_id (convert_imdb_id "tt0133093") = convert_imdb_id "tt0133093"
      ∧ (convert_imdb_id "tt0133093").length = 9 :=
  ⟨by decide,
   (C10_convert_idempotent_on_valid_ids "tt0133093" (by decide)).1,
   (C10_convert_idempotent_on_valid_ids "tt0133093" (by decide)).2⟩

/-- For any `seen` set, the detection-call list of the alternate-titles loop
is the first-occurrence list of the titles of the remaining entries, restricted to
titles not yet seen. -/
theorem alt_go_calls (detect : String → String) (entries : List AltEntry) :
    ∀ seen : List String,
      (alt_go detect entries seen).2
        = (firstOccurrences (entries.map pyGetTitle)).filter
            (fun x => decide (x ∉ seen)) := by
  induction entries with
  | nil => intro seen; rfl
  | cons e rest ih =>
    intro seen
    have key : ∀ L : List String,
        (L.filter fun x => decide (x ≠ pyGetTitle e)).filter
            (fun x => decide (x ∉ seen))
          = L.filter fun x => decide (x ∉ pyGetTitle e :: seen) := by
      intro L
      rw [List.filter_filter]
      refine List.filter_congr fun a _ => ?_
      by_cases h1 : a = pyGetTitle e <;> by_cases h2 : a ∈ seen <;> simp [h1, h2]
    by_cases hc : pyGetTitle e ∈ seen
    · simp only [alt_go, if_pos hc, ih, List.map_cons, firstOccurrences]
      rw [List.filter_cons, if_neg (by simp [hc]), key]
    · simp only [alt_go, if_neg hc, ih, List.map_cons, firstOccurrences]
      rw [List.filter_cons, if_pos (by simp [hc]), key]

/-- The titles passed to the detection function are exactly the distinct
titles of the response, in order of first occurrence. -/
theorem alt_calls_eq (detect : String → String) (entries : List AltEntry) :
    alt_calls detect entries = firstOccurrences (entries.map pyGetTitle) := by
  simp only [alt_calls, alt_go_calls]
  simp

/-- The first-occurrence list has no duplicates. -/
theorem firstOccurrences_nodup (ts : List String) : (firstOccurrences ts).Nodup := by
  induction ts with
  | nil => exact List.nodup_nil
  | cons t ts ih =>
    simp only [firstOccurrences]
    refine List.nodup_cons.2 ⟨fun hmem => ?_, ih.filter _⟩
    have := List.of_mem_filter hmem
    simp at this

/-- Claim C3: for every alternate-titles response, the language-detection function
is invoked exactly once per distinct title string (exact, case-sensitive
equality), in order of first occurrence; in particular on titles
A, B, A, C it is called for A, B, C in that order. -/
theorem C3_detection_once_per_distinct_title :
    (∀ (detect : String → String) (entries : List AltEntry),
        alt_calls detect entries = firstOccurrences (entries.map pyGetTitle))
      ∧ alt_calls (fun _ => "EN")
          [⟨some "A"⟩, ⟨some "B"⟩, ⟨some "A"⟩, ⟨some "C"⟩] = ["A", "B", "C"] :=
  ⟨alt_calls_eq, by rfl⟩

/-- Claim C9: a title-less entry is treated as bearing the literal title "NA";
detection is called on "NA" at most once per response, and an entry without a
title suppresses later entries whose actual title is "NA" (and, by the same
count bound, vice versa), since both map to the same seen-set key. -/
theorem C9_missing_title_aliases_to_NA :
    (∀ (detect : String → String) (entries : List AltEntry),
        (alt_calls detect entries).count "NA" ≤ 1)
      ∧ (∀ (detect : String → String) (e : AltEntry) (entries : List AltEntry),
          e.title = none →
            alt_calls detect (e :: entries)
              = "NA" :: (alt_calls detect entries).filter
                  (fun t => decide (t ≠ "NA"))) := by
  constructor
  · intro detect entries
    rw [alt_calls_eq]
    exact List.nodup_iff_count_le_one.1 (firstOccurrences_nodup _) _
  · intro detect e entries he
    have ht : pyGetTitle e = "NA" := by rw [pyGetTitle, he]; rfl
    rw [alt_calls_eq, alt_calls_eq, List.map_cons, ht]
    simp only [firstOccurrences]

/-- Claim C9 (witness): an entry with no title followed by an entry titled "NA"
triggers exactly one detection call, on "NA". -/
theorem C9_witness :
    alt_calls (fun _ => "EN") [(⟨none⟩ : AltEntry), ⟨some "NA"⟩] = ["NA"] :=
  (C9_missing_title_aliases_to_NA.2 (fun _ => "EN") ⟨none⟩ [⟨some "NA"⟩] rfl).trans
    (by rfl)

/-- The loop of `display_search_results` renders, for in-range indices, one
line per hit in position order. -/
theorem dsr_go_spec (titles : List SearchHit) :
    ∀ (n i : Nat) (acc : String), i + n ≤ titles.length →
      dsr_go titles n i acc
        = some (acc ++ (specLines (i + 1) ((titles.drop i).take n)).foldr
            (fun a b => a ++ b) "") := by
  intro n
  induction n with
  | zero =>
    intro i acc h
    simp only [dsr_go, List.take_zero, specLines, List.foldr_nil, String.append_empty]
  | succ n ih =>
    intro i acc h
    have hi : i < titles.length := by omega
    have hget : titles[i]? = some titles[i] := List.getElem?_eq_getElem hi
    rw [List.drop_eq_getElem_cons hi, List.take_succ_cons]
    simp only [dsr_go, hget]
    rw [ih (i + 1) (acc ++ searchLine (i + 1) titles[i]) (by omega)]
    simp only [specLines, List.foldr_cons, String.append_assoc]

/-- The sample hit list of the claim: a hit with only a title, an empty hit,
and a hit with only a type. -/
def sampleHits : List SearchHit :=
  [⟨none, some "X", none, none⟩, ⟨none, none, none, none⟩,
   ⟨some "short", none, none, none⟩]

/-- Claim C6: on the sample hits with display count 3, the rendering is exactly
three lines — AKA/X, AKA/Not Found, short/Not Found — and in general, when
the display count is within bounds, the rendering is one line per hit in
order, each line showing the 1-based position, the `titleType` of the hit (or
"AKA"), and its `title` or `name` (or "Not Found"). -/
theorem C6_display_search_results_spec :
    display_search_results sampleHits 3
      = some ("1= Type: AKA            Title: X                        \n"
          ++ "2= Type: AKA            Title: Not Found                \n"
          ++ "3= Type: short          Title: Not Found                \n")
      ∧ ∀ (hits : List SearchHit) (d : Nat), d ≤ hits.length →
          display_search_results hits d
            = some ((specLines 1 (hits.take d)).foldr (fun a b => a ++ b) "") := by
  constructor
  · rfl
  · intro hits d hd
    show dsr_go hits d 0 "" = _
    rw [dsr_go_spec hits d 0 "" (by omega)]
    simp [List.drop_zero]

/-- Claim C6 (witness): the general in-bounds rendering applied to the sample
hits. -/
theorem C6_witness :
    display_search_results sampleHits 3
      = some ((specLines 1 (sampleHits.take 3)).foldr (fun a b => a ++ b) "") :=
  C6_display_search_results_spec.2 sampleHits 3 (by decide)

/-- Failure of the mode-selection validation (imdb.py lines 156-159): the
entry is not an integer at all, or an integer other than 1 and 2. -/
def modeInvalid (s : String) : Prop :=
  pyParseInt s = none ∨ ∃ k, pyParseInt s = some k ∧ k ≠ 1 ∧ k ≠ 2

/-- Claim C8: input validation in `main` is fatal with no retry — an invalid
mode-selection entry, or an ill-formed id in id mode, prints the error
message and terminates the run via `sys.exit()` before any remote request is
issued. -/
theorem C8_fatal_validation (env : Env) :
    (∀ s rest, env.inputs = s :: rest → modeInvalid s →
        (main env).2 = Outcome.exited
          ∧ (∀ ep q, Event.requested ep q ∉ (main env).1)
          ∧ Event.printed "Invalid Selecton." ∈ (main env).1)
      ∧ (∀ s rest, env.inputs = "2" :: s :: rest → matches_imdb_id s = false →
          (main env).2 = Outcome.exited
            ∧ (∀ ep q, Event.requested ep q ∉ (main env).1)
            ∧ Event.printed "Invalid ID." ∈ (main env).1) := by
  constructor
  · intro s rest h1 hbad
    rcases hbad with hnone | ⟨k, hk, h1k, h2k⟩
    · refine ⟨?_, ?_, ?_⟩ <;> simp [main, h1, hnone]
    · refine ⟨?_, ?_, ?_⟩ <;> simp [main, h1, hk, h1k, h2k]
  · intro s rest h1 hreg
    have hp2 : pyParseInt "2" = some 2 := by rfl
    refine ⟨?_, ?_, ?_⟩ <;> simp [main, h1, hp2, hreg]

/-- An environment whose first console entry is not a valid mode. -/
def envBadMode : Env := ⟨["x"], [], td_full, [], fun _ => "EN"⟩

/-- Claim C8 (witness): on the concrete entry "x" the run exits with
"Invalid Selecton." and no request. -/
theorem C8_witness :
    (main envBadMode).2 = Outcome.exited
      ∧ (∀ ep q, Event.requested ep q ∉ (main envBadMode).1)
      ∧ Event.printed "Invalid Selecton." ∈ (main envBadMode).1 :=
  (C8_fatal_validation envBadMode).1 "x" [] rfl (Or.inl (by rfl))

/-- Claim C7: in id mode the credits and alternate-titles requests are built from
the raw catalogue id — every outbound query is `{tconst: rawId}` — while the
credits rendering displays the `convert_imdb_id`-formatted id; the formatter
never affects request parameters. -/
theorem C7_raw_id_in_requests_formatted_in_display (env : Env) (rawId : String)
    (rest : List String) (h1 : env.inputs = "2" :: rawId :: rest)
    (h2 : matches_imdb_id rawId = true) :
    Event.requested Endpoint.get_credits [("tconst", rawId)] ∈ (main env).1
      ∧ (∀ ep q, Event.requested ep q ∈ (main env).1 → q = [("tconst", rawId)])
      ∧ (∀ s, display_title_credits env.credits (convert_imdb_id rawId) = some s →
          Event.printed s ∈ (main env).1) := by
  have hp2 : pyParseInt "2" = some 2 := by rfl
  rcases hdc : display_title_credits env.credits (convert_imdb_id rawId) with _ | cs
  · refine ⟨?_, ?_, ?_⟩ <;>
      simp [main, h1, hp2, h2, mainTail, construct_query, hdc]
  · refine ⟨?_, ?_, ?_⟩ <;>
      simp [main, h1, hp2, h2, mainTail, construct_query, hdc]
    rintro ep q (⟨-, hq⟩ | ⟨-, hq⟩) <;> exact hq

/-- An id-mode environment with the 9-character id of the end-to-end
scenario. -/
def envC7 : Env := ⟨["2", "tt0133093"], [], td_full, [⟨some "A"⟩], fun _ => "EN"⟩

/-- Claim C7 (witness): the concrete id-mode run requests credits with the raw id
`tt0133093`. -/
theorem C7_witness :
    matches_imdb_id "tt0133093" = true
      ∧ Event.requested Endpoint.get_credits [("tconst", "tt0133093")]
          ∈ (main envC7).1 :=
  ⟨by decide,
   (C7_raw_id_in_requests_formatted_in_display envC7 "tt0133093" [] rfl
      (by decide)).1⟩

end Imdb
